import Mathlib

/-!
Verification of the tauri-wasm bridge core against its specification.

The development shallowly embeds the crate's data model and operations:
JS values crossing the wasm boundary become an inductive `JsValue`; the
invoke request builder, the options/headers machinery, the event emission
builder with its six-variant `EventTarget`, and the error wrappers are
translated from `src/tauri-wasm/src/{invoke,event,error,serde,string}.rs`.
The legacy revision kept in `src/tauri-wasm/src/core.rs` (plain async
`invoke` functions and a three-category error enum) is embedded in the
`core` namespace. The single host-boundary primitive `ext::invoke` is
modelled by recording the issued call as a `HostCall` value; awaiting a
built request denotes the list of host calls it performs.
-/

namespace TauriWasm

/-- JS values as they cross the wasm boundary: the model distinguishes the
undefined and null sentinels, strings, numbers, booleans, byte arrays
(Uint8Array / ArrayBuffer contents), objects as field lists, and arrays. -/
inductive JsValue where
  | undefined
  | null
  | boolean (b : Bool)
  | num (n : Int)
  | str (s : String)
  | bytes (bs : List Nat)
  | obj (fields : List (String × JsValue))
  | arr (elems : List JsValue)

/-- `ToStringValue for &str` and for `String`/`JsString` (string.rs): the
text becomes a JS string value, with no validation or normalization. -/
def to_string_value (s : String) : JsValue :=
  JsValue.str s

/-- The `Options` struct (invoke.rs): invoke options carrying a headers value. -/
structure Options where
  headers : JsValue

/-- `Options::empty` (invoke.rs): the headers field is the undefined sentinel. -/
def Options.empty : Options where
  headers := JsValue.undefined

/-- One call issued to the host boundary primitive `ext::invoke`,
as the (command, args, options) triple handed to the host. -/
structure HostCall where
  cmd : JsValue
  args : JsValue
  opts : Options

/-- The `Invoke` request builder struct (invoke.rs), with its generic
command and args parameters instantiated at the post-conversion JS
values that reach the host. -/
structure Invoke where
  cmd : JsValue
  args : JsValue
  opts : Options

namespace api

/-- `api::invoke` (invoke.rs): builds a request whose args default to the
undefined sentinel and whose options default to `Options::empty`; the
command name has already passed through `to_string_value`. -/
def invoke (cmd : JsValue) : Invoke where
  cmd := cmd
  args := JsValue.undefined
  opts := Options.empty

end api

/-- `Invoke::with_args` (invoke.rs): keeps the command and options, replaces
the args with the converted payload (`args.to_args()`, passed here already
converted to its JS value). -/
def Invoke.with_args (self : Invoke) (args : JsValue) : Invoke where
  cmd := self.cmd
  args := args
  opts := self.opts

/-- `Invoke::with_options` (invoke.rs): `Self { opts, ..self }` — keeps the
command and args, replaces the options. -/
def Invoke.with_options (self : Invoke) (opts : Options) : Invoke :=
  { self with opts := opts }

/-- `IntoFuture for Invoke` (invoke.rs): converting the request into its
future calls `ext::invoke(self.cmd, self.args, self.opts)` once; the
denoted trace of host-boundary calls the awaited request performs. -/
def Invoke.into_future (self : Invoke) : List HostCall :=
  [{ cmd := self.cmd, args := self.args, opts := self.opts }]

/-- The error wrapper (error.rs): `pub struct Error(pub(crate) JsValue)`
holding the raw host-side or encoding-failure value. -/
structure Error where
  raw : JsValue

/-- `From<Error> for JsValue` (error.rs): unwraps to the original raw value. -/
def Error.toJsValue (e : Error) : JsValue :=
  e.raw

/-- The error built by `Options::from_map` / `Options::from_record`
(serde.rs) from a headers serialization failure: `Error(JsValue::from(e))`. -/
def headers_error (e : JsValue) : Error where
  raw := e

/-- The error built by `args` (serde.rs) and `api::emit` (event.rs) from a
payload serialization failure: `Error(JsValue::from(e))`. -/
def args_error (e : JsValue) : Error where
  raw := e

/-- The error built by `InvokeFuture::poll` / `EmitFuture::poll`
(invoke.rs, event.rs) from a host call failure: `map_err(Error)`. -/
def invoke_error (e : JsValue) : Error where
  raw := e

/-- `args` (serde.rs): the serialization outcome of
`serde_wasm_bindgen::to_value` is passed in; a failure is wrapped into the
error type before any request exists, a success becomes the args value
(the local `Data` wrapper's `to_args` returns the inner JS value). -/
def args (ser : Except JsValue JsValue) : Except Error JsValue :=
  match ser with
  | .error e => .error { raw := e }
  | .ok v => .ok v

/-- `EventTarget` (event.rs): the closed six-variant targeting union. -/
inductive EventTarget (S : Type) where
  | any
  | anyLabel (s : S)
  | app
  | window (s : S)
  | webview (s : S)
  | webviewWindow (s : S)

/-- `EventTarget::from_string` (event.rs): always the `AnyLabel` variant. -/
def EventTarget.from_string {S : Type} (s : S) : EventTarget S :=
  EventTarget.anyLabel s

/-- `EventTarget::map` (event.rs): applies a function to the label, keeping
the variant. -/
def EventTarget.map {S T : Type} (self : EventTarget S) (f : S → T) : EventTarget T :=
  match self with
  | .any => .any
  | .anyLabel s => .anyLabel (f s)
  | .app => .app
  | .window s => .window (f s)
  | .webview s => .webview (f s)
  | .webviewWindow s => .webviewWindow (f s)

/-- `From<&str> for EventTarget<JsString>` (event.rs): goes through
`from_string` on the JS string built from the text. -/
def EventTarget.from_str (s : String) : EventTarget String :=
  EventTarget.from_string s

/-- The reserved untargeted emission command (event.rs static `EMIT`). -/
def EMIT : String := "plugin:event|emit"

/-- The reserved targeted emission command (event.rs static `EMIT_TO`). -/
def EMIT_TO : String := "plugin:event|emit_to"

/-- Modelled from the spec: the JS helper `eargs` lives in `core.js`, which
is not under src (ext.rs only declares it). Per section 4.5 a call carries
(event, payload, target-discriminant, target-label-or-absent); packaged
here as an argument array in the declared parameter order. -/
def eargs (event payload : JsValue) (k : Nat) (l : JsValue) : JsValue :=
  JsValue.arr [event, payload, JsValue.num (Int.ofNat k), l]

/-- The (discriminant, label) pair computed by the match inside
`invoke_emit` (event.rs): `None` gives 0, `Any` 1, `AnyLabel` 2, `App` 3,
`Window` 4, `Webview` 5, `WebviewWindow` 6; labelless cases carry the
undefined sentinel. -/
def kind_label (target : Option (EventTarget JsValue)) : Nat × JsValue :=
  match target with
  | none => (0, JsValue.undefined)
  | some .any => (1, JsValue.undefined)
  | some (.anyLabel s) => (2, s)
  | some .app => (3, JsValue.undefined)
  | some (.window s) => (4, s)
  | some (.webview s) => (5, s)
  | some (.webviewWindow s) => (6, s)

/-- `invoke_emit` (event.rs): picks `EMIT` when the target is `None` and
`EMIT_TO` otherwise, computes the discriminant/label pair, packages the
event arguments via `eargs` and issues the host call with empty options. -/
def invoke_emit (target : Option (EventTarget JsValue)) (event payload : JsValue) : HostCall :=
  let cmd := if target.isNone then EMIT else EMIT_TO
  let kl := kind_label target
  { cmd := JsValue.str cmd, args := eargs event payload kl.1 kl.2, opts := Options.empty }

/-- The `Emit` builder struct (event.rs), with its generic event and target
parameters instantiated at the post-conversion JS values. -/
structure Emit where
  event : JsValue
  payload : JsValue
  target : Option (EventTarget JsValue)

namespace api

/-- `api::emit` (event.rs): the event name has passed through
`to_string_value`; `ser` is the outcome of `serde_wasm_bindgen::to_value`
on the payload. A failure is wrapped as `Error(JsValue::from(e))` and
returned at once; a success builds the `Emit` value with no target. -/
def emit (event : JsValue) (ser : Except JsValue JsValue) : Except Error Emit :=
  match ser with
  | .error e => .error { raw := e }
  | .ok payload => .ok { event := event, payload := payload, target := none }

end api

/-- `Emit::to` (event.rs): stores the target, mapping its label through
`to_string_value`; event and payload are kept. -/
def Emit.to (self : Emit) (target : EventTarget String) : Emit :=
  { self with target := some (target.map to_string_value) }

/-- `IntoFuture for Emit` (event.rs): awaiting issues the single host call
built by `invoke_emit` from the stored target, event and payload. -/
def Emit.into_future (self : Emit) : List HostCall :=
  [invoke_emit self.target self.event self.payload]

/-- The host-call trace of the `emit(...)?.await` pipeline: a serialization
failure short-circuits with the `?` operator before any future exists, so
no host call is issued. -/
def emit_calls (event : JsValue) (ser : Except JsValue JsValue) : List HostCall :=
  match api.emit event ser with
  | .error _ => []
  | .ok em => em.into_future

namespace core

/-- The legacy error enum (core.rs) with three distinct categories:
`Invoke` for host call failures, `Args` for payload encoding failures,
`Headers` for headers encoding failures. -/
inductive Error where
  | invoke (js : JsValue)
  | args (js : JsValue)
  | headers (js : JsValue)

/-- `From<Error> for JsValue` (core.rs): every constructor unwraps to its
raw payload. -/
def Error.toJsValue : Error → JsValue
  | .invoke js => js
  | .args js => js
  | .headers js => js

/-- A call issued through the legacy `ext::invoke` (core.rs era), whose
options parameter is `Option<Options>`. -/
structure HostCall where
  cmd : JsValue
  args : JsValue
  opts : Option Options

/-- The legacy plain `invoke` (core.rs): the command goes through
`to_string_value`, the args are hard-coded to `JsValue::NULL`, and no
options are passed; the host call it issues. -/
def invoke (cmd : JsValue) : HostCall where
  cmd := cmd
  args := JsValue.null
  opts := none

/-- `ToHeaders::to_options` (core.rs): a headers encoding failure is mapped
through `Error::Headers`; a success becomes the options value. -/
def to_options (to_headers : Except JsValue JsValue) : Except Error Options :=
  match to_headers with
  | .error e => .error (Error.headers e)
  | .ok h => .ok { headers := h }

end core

/-- C1: every `EventTarget` variant produces exactly its fixed
(discriminant, label) wire pair — no target gives 0, `Any` (1, absent),
`AnyLabel s` (2, s), `App` (3, absent), `Window s` (4, s), `Webview s`
(5, s), `WebviewWindow s` (6, s) — and `invoke_emit` selects the reserved
"emit" command exactly when the target is `None` and the reserved
"emit_to" command exactly when a target is given. -/
theorem c1_event_target_wire :
    kind_label none = (0, JsValue.undefined)
      ∧ kind_label (some .any) = (1, JsValue.undefined)
      ∧ (∀ s, kind_label (some (.anyLabel s)) = (2, s))
      ∧ kind_label (some .app) = (3, JsValue.undefined)
      ∧ (∀ s, kind_label (some (.window s)) = (4, s))
      ∧ (∀ s, kind_label (some (.webview s)) = (5, s))
      ∧ (∀ s, kind_label (some (.webviewWindow s)) = (6, s))
      ∧ (∀ e p, (invoke_emit none e p).cmd = JsValue.str EMIT)
      ∧ (∀ t e p, (invoke_emit (some t) e p).cmd = JsValue.str EMIT_TO) :=
  ⟨rfl, rfl, fun _ => rfl, rfl, fun _ => rfl, fun _ => rfl, fun _ => rfl,
    fun _ _ => rfl, fun _ _ _ => rfl⟩

/-- C2 counterexample: the claim says a request built without `with_args`
is issued with the undefined sentinel as args, never null; but the legacy
plain `invoke` (core.rs), invoked on the concrete command "connect" with
no args, issues the host call with args equal to the null sentinel, which
is not the undefined sentinel. -/
theorem c2_null_args_counterexample :
    (core.invoke (to_string_value "connect")).args = JsValue.null
      ∧ JsValue.null ≠ JsValue.undefined :=
  ⟨rfl, fun h => JsValue.noConfusion h⟩

/-- C2 amended: a request built through the `Invoke` builder (invoke.rs)
without `with_args` is issued with args equal to the undefined sentinel —
never null and never an object (in particular not an empty object) — the
same value every time; the legacy plain `invoke` (core.rs) instead issues
its call with args equal to the null sentinel. -/
theorem c2_default_args_undefined :
    (∀ c, (api.invoke c).args = JsValue.undefined)
      ∧ (∀ c, (api.invoke c).into_future = [{ cmd := c, args := JsValue.undefined, opts := Options.empty }])
      ∧ JsValue.undefined ≠ JsValue.null
      ∧ (∀ fields, JsValue.undefined ≠ JsValue.obj fields)
      ∧ (∀ c, (core.invoke c).args = JsValue.null) :=
  ⟨fun _ => rfl, fun _ => rfl, fun h => JsValue.noConfusion h,
    fun _ h => JsValue.noConfusion h, fun _ => rfl⟩

/-- C3 counterexample: in the current revision the error type (error.rs)
is a single wrapper, so at the concrete raw value "boom" a
headers-encoding failure, an args-encoding failure and a host-call failure
produce exactly the same error value — a caller inspecting the error
cannot tell which part of the call was malformed, contradicting the
claimed distinct categories. -/
theorem c3_collapsed_categories_counterexample :
    headers_error (JsValue.str "boom") = args_error (JsValue.str "boom")
      ∧ headers_error (JsValue.str "boom") = invoke_error (JsValue.str "boom") :=
  ⟨rfl, rfl⟩

/-- C3 amended: in the legacy core module (core.rs) a headers-encoding
failure is reported through the `Error::Headers` constructor, distinct
from `Error::Args` and `Error::Invoke`, so there callers can tell the
three parts apart; in the current revision (error.rs) all three failures
collapse into the single undifferentiated `Error` wrapper. -/
theorem c3_error_categories :
    (∀ e, core.to_options (.error e) = .error (core.Error.headers e))
      ∧ (∀ e₁ e₂, core.Error.headers e₁ ≠ core.Error.args e₂)
      ∧ (∀ e₁ e₂, core.Error.headers e₁ ≠ core.Error.invoke e₂)
      ∧ (∀ e₁ e₂, core.Error.args e₁ ≠ core.Error.invoke e₂)
      ∧ (∀ e, headers_error e = args_error e)
      ∧ (∀ e, headers_error e = invoke_error e) :=
  ⟨fun _ => rfl, fun _ _ h => core.Error.noConfusion h,
    fun _ _ h => core.Error.noConfusion h, fun _ _ h => core.Error.noConfusion h,
    fun _ => rfl, fun _ => rfl⟩

/-- C4: wrapping any raw host error value and converting the wrapper back
to a transport value yields the very same value, in both the current
wrapper (error.rs) and every constructor of the legacy enum (core.rs) —
nothing is discarded and nothing is double-wrapped. -/
theorem c4_error_roundtrip :
    (∀ v, Error.toJsValue { raw := v } = v)
      ∧ (∀ v, core.Error.toJsValue (.invoke v) = v)
      ∧ (∀ v, core.Error.toJsValue (.args v) = v)
      ∧ (∀ v, core.Error.toJsValue (.headers v) = v) :=
  ⟨fun _ => rfl, fun _ => rfl, fun _ => rfl, fun _ => rfl⟩

/-- C5: awaiting a constructed invoke request issues exactly one host call
carrying the accumulated (command, args, options) triple, and awaiting a
constructed emit value issues exactly one host call, the one built by
`invoke_emit`; the trace of each await has length one, so no second call
arises from the same request value (in the source, `into_future` takes the
request by value, so Rust's move semantics make reuse unrepresentable). -/
theorem c5_single_call :
    (∀ i : Invoke, i.into_future = [{ cmd := i.cmd, args := i.args, opts := i.opts }])
      ∧ (∀ i : Invoke, i.into_future.length = 1)
      ∧ (∀ em : Emit, em.into_future = [invoke_emit em.target em.event em.payload])
      ∧ (∀ em : Emit, em.into_future.length = 1) :=
  ⟨fun _ => rfl, fun _ => rfl, fun _ => rfl, fun _ => rfl⟩

/-- C6: a request built without `with_options` carries `Options::empty`,
whose headers field is the undefined sentinel and is not an object (in
particular not an empty headers map); both the default invoke options and
the options of every emission call are this empty value. -/
theorem c6_default_options_absent :
    Options.empty.headers = JsValue.undefined
      ∧ (∀ fields, Options.empty.headers ≠ JsValue.obj fields)
      ∧ (∀ c, (api.invoke c).opts = Options.empty)
      ∧ (∀ t e p, (invoke_emit t e p).opts = Options.empty) :=
  ⟨rfl, fun _ h => JsValue.noConfusion h, fun _ => rfl, fun _ _ _ => rfl⟩

/-- C7: when payload serialization fails, `api::emit` returns the wrapped
error immediately and the emission pipeline issues no host call at all,
and `args` returns the wrapped error before any invoke is built. -/
theorem c7_encoding_failure_local :
    (∀ event e, api.emit event (.error e) = .error { raw := e })
      ∧ (∀ event e, emit_calls event (.error e) = [])
      ∧ (∀ e, args (.error e) = .error { raw := e }) :=
  ⟨fun _ _ => rfl, fun _ _ => rfl, fun _ => rfl⟩

/-- C8: `with_args` returns a request with the same command and options as
the input, changing only the args; `with_options` returns a request with
the same command and args, changing only the options; as pure functions on
values, neither mutates a previously returned request. -/
theorem c8_builder_frame :
    (∀ (i : Invoke) (a : JsValue),
        (i.with_args a).cmd = i.cmd ∧ (i.with_args a).opts = i.opts ∧ (i.with_args a).args = a)
      ∧ (∀ (i : Invoke) (o : Options),
          (i.with_options o).cmd = i.cmd ∧ (i.with_options o).args = i.args ∧ (i.with_options o).opts = o) :=
  ⟨fun _ _ => ⟨rfl, rfl, rfl⟩, fun _ _ => ⟨rfl, rfl, rfl⟩⟩

/-- C9: `EventTarget::from_string` and the `From<&str>` conversion always
yield the `AnyLabel` variant, so a targeted emission built from a bare
string goes out with wire discriminant 2 and that string as the label,
through the "emit_to" command. -/
theorem c9_from_string_any_label :
    (∀ (S : Type) (s : S), EventTarget.from_string s = EventTarget.anyLabel s)
      ∧ (∀ s : String, EventTarget.from_str s = EventTarget.anyLabel s)
      ∧ (∀ s : String,
          kind_label (some ((EventTarget.from_str s).map to_string_value)) = (2, JsValue.str s))
      ∧ (∀ (s : String) (e p : JsValue),
          (invoke_emit (some ((EventTarget.from_str s).map to_string_value)) e p).cmd
            = JsValue.str EMIT_TO) :=
  ⟨fun _ _ => rfl, fun _ => rfl, fun _ => rfl, fun _ _ _ => rfl⟩

/-- C10: text-to-command conversion is a total function — every string,
including the empty one, becomes the corresponding JS string value with no
local validation — and both the invoke and emit builders forward the
converted name unmodified. -/
theorem c10_names_total_unmodified :
    (∀ s : String, to_string_value s = JsValue.str s)
      ∧ to_string_value "" = JsValue.str ""
      ∧ (∀ s : String, (api.invoke (to_string_value s)).cmd = JsValue.str s)
      ∧ (∀ (s : String) (v : JsValue),
          api.emit (to_string_value s) (.ok v) = .ok { event := JsValue.str s, payload := v, target := none }) :=
  ⟨fun _ => rfl, rfl, fun _ => rfl, fun _ _ => rfl⟩

end TauriWasm
